import Mathlib

/-!
Verification of the locatrix room-detection pipeline.

Shallow embedding of the core components of the repository, translated
from the Python sources:
  * `src/services/sagemaker_service.py` — detection post-processing
    (`postprocess_output`, `_filter_overlapping_boundaries`);
  * `src/services/job_service.py` — job cancellation with optimistic locking;
  * `src/models/job.py` — the Job model (`validate`, `update_status`);
  * `src/utils/retry.py` — the retry executor with jittered backoff;
  * `src/services/preview_service.py` and `src/pipeline/stage_1_preview.py`
    — the stage-1 preview flow with its content-addressed result cache;
  * `src/pipeline/stage_2_intermediate.py` — the stage-2 artifact load;
  * `src/services/websocket_service.py` — notification fan-out.

Machine floats of the Python code are modelled by exact rationals `ℚ`;
timestamps, identifiers and serialized payloads by opaque `String`s;
collaborator outcomes (store writes, transport sends) by explicit
outcome parameters.
-/

set_option maxHeartbeats 1000000

/-! ## Detection post-processor (src/services/sagemaker_service.py) -/

/-- An axis-aligned bounding box `[x_min, y_min, x_max, y_max]`. -/
structure Box where
  x0 : ℚ
  y0 : ℚ
  x1 : ℚ
  y1 : ℚ
deriving DecidableEq, Repr

/-- One raw entry of `model_response['detections']`: a bounding-box list,
a confidence score, an optional name hint and (growth mode) raw vertices.
Non-numeric bbox entries of the Python code are not representable here;
the length check of the code is kept. -/
structure Detection where
  bbox : List ℚ
  confidence : ℚ
  nameHint : String
  vertices : List (List ℚ)
deriving DecidableEq, Repr

/-- A validated room emitted by `postprocess_output`. -/
structure Room where
  id : String
  boundingBox : Box
  polygon : List (ℚ × ℚ)
  nameHint : String
  confidence : ℚ
deriving DecidableEq, Repr

/-- `output_format` argument: `'mvp'` (bounding boxes) or `'growth'`
(precise vertices). -/
inductive OutputFormat where
  | mvp
  | growth
deriving DecidableEq, Repr

/-- The id string `f"room_{n:03d}"`: zero-padded to three digits. -/
def roomId (n : Nat) : String :=
  "room_" ++ (if n < 10 then "00" ++ toString n
    else if n < 100 then "0" ++ toString n else toString n)

/-- The box-corner quadrilateral used as the polygon when no precise
vertices are available. -/
def boxPolygon (b : Box) : List (ℚ × ℚ) :=
  [(b.x0, b.y0), (b.x1, b.y0), (b.x1, b.y1), (b.x0, b.y1)]

/-- The vertex-validation loop of the growth branch: every vertex needs at
least two coordinates; the first failure aborts the whole list. -/
def validateVertices : List (List ℚ) → Option (List (ℚ × ℚ))
  | [] => some []
  | v :: vs =>
    match v with
    | a :: b :: _ => (validateVertices vs).map (fun ws => (a, b) :: ws)
    | _ => none

/-- The per-vertex bounds check: applied only when both image dimensions
are known. -/
def vertexInBounds (iw ih : Option ℚ) (p : ℚ × ℚ) : Bool :=
  match iw, ih with
  | some w, some h => decide (0 ≤ p.1 ∧ p.1 ≤ w ∧ 0 ≤ p.2 ∧ p.2 ≤ h)
  | _, _ => true

/-- The polygon of a growth-mode room: validated supplied vertices when at
least three are given and all pass validation and bounds, the box corners
otherwise (fallback, the candidate is never dropped here). -/
def growthPolygon (iw ih : Option ℚ) (b : Box) (verts : List (List ℚ)) :
    List (ℚ × ℚ) :=
  if 3 ≤ verts.length then
    match validateVertices verts with
    | some vs => if vs.all (vertexInBounds iw ih) then vs else boxPolygon b
    | none => boxPolygon b
  else boxPolygon b

/-- The box bounds check of `postprocess_output`: drop when
`x_min < 0 or y_min < 0 or x_max > image_width or y_max > image_height`,
applied only when both dimensions are known. -/
def boxInBounds (iw ih : Option ℚ) (b : Box) : Bool :=
  match iw, ih with
  | some w, some h => decide (0 ≤ b.x0 ∧ 0 ≤ b.y0 ∧ b.x1 ≤ w ∧ b.y1 ≤ h)
  | _, _ => true

/-- One iteration of the `for idx, detection in enumerate(detections)`
loop of `postprocess_output`: confidence threshold, bbox length, bbox
ordering and bbox bounds checks in the order of the code, then the room
record with id `room_{idx+1:03d}`. -/
def processDetection (fmt : OutputFormat) (threshold : ℚ) (iw ih : Option ℚ)
    (idx : Nat) (d : Detection) : Option Room :=
  if d.confidence < threshold then none
  else
    match d.bbox with
    | x0 :: y0 :: x1 :: y1 :: _ =>
      if x1 ≤ x0 ∨ y1 ≤ y0 then none
      else
        let b : Box := ⟨x0, y0, x1, y1⟩
        if boxInBounds iw ih b then
          some { id := roomId (idx + 1), boundingBox := b,
                 polygon := match fmt with
                   | .mvp => boxPolygon b
                   | .growth => growthPolygon iw ih b d.vertices,
                 nameHint := d.nameHint, confidence := d.confidence }
        else none
    | _ => none

/-- The whole enumeration loop, carrying the running input index. -/
def processDetections (fmt : OutputFormat) (threshold : ℚ) (iw ih : Option ℚ) :
    Nat → List Detection → List Room
  | _, [] => []
  | idx, d :: ds =>
    match processDetection fmt threshold iw ih idx d with
    | some r => r :: processDetections fmt threshold iw ih (idx + 1) ds
    | none => processDetections fmt threshold iw ih (idx + 1) ds

/-- Area of a box. -/
def boxArea (b : Box) : ℚ := (b.x1 - b.x0) * (b.y1 - b.y0)

/-- Intersection area of two boxes (meaningful when they overlap). -/
def interArea (b e : Box) : ℚ :=
  (min b.x1 e.x1 - max b.x0 e.x0) * (min b.y1 e.y1 - max b.y0 e.y0)

/-- The overlap test of `_filter_overlapping_boundaries`: nonempty
intersection, positive union area and IoU strictly above `0.5`. -/
def hasSignificantOverlap (b e : Box) : Bool :=
  if max b.x0 e.x0 < min b.x1 e.x1 ∧ max b.y0 e.y0 < min b.y1 e.y1 then
    if 0 < boxArea b + boxArea e - interArea b e then
      decide ((1 : ℚ) / 2 < interArea b e / (boxArea b + boxArea e - interArea b e))
    else false
  else false

/-- Ordering used by `sorted(rooms, key=lambda r: r.get('confidence', 0.0),
reverse=True)`: confidence descending. Python's sort is stable, as is
`List.insertionSort` with this relation. -/
def confGe (a b : Room) : Prop := b.confidence ≤ a.confidence

instance : DecidableRel confGe :=
  fun a b => inferInstanceAs (Decidable (b.confidence ≤ a.confidence))

instance : IsTotal Room confGe := ⟨fun a b => le_total b.confidence a.confidence⟩

instance : IsTrans Room confGe := ⟨fun _ _ _ h h2 => le_trans h2 h⟩

/-- The greedy keep loop: a candidate (in confidence-descending order) is
kept unless it overlaps significantly with an already-kept room. The
`len(bbox) < 4` guard of the code is vacuous here since `Box` always has
four components. -/
def greedyKeep : List Room → List Room → List Room
  | kept, [] => kept
  | kept, r :: rs =>
    if kept.any (fun e => hasSignificantOverlap r.boundingBox e.boundingBox) then
      greedyKeep kept rs
    else
      greedyKeep (kept ++ [r]) rs

/-- `_filter_overlapping_boundaries`. -/
def filterOverlappingBoundaries (rooms : List Room) : List Room :=
  if rooms = [] then rooms
  else greedyKeep [] (List.insertionSort confGe rooms)

/-- The result record of `postprocess_output`. -/
structure PostResult where
  rooms : List Room
  detectionCount : Nat
  outputFormat : OutputFormat
  confidenceThreshold : ℚ
  filteredCount : Int
deriving DecidableEq, Repr

/-- `SageMakerService.postprocess_output`: validate and convert each
detection, then (when requested and more than one room survived) suppress
overlaps. -/
def postprocessOutput (fmt : OutputFormat) (threshold : ℚ) (iw ih : Option ℚ)
    (filterOverlaps : Bool) (detections : List Detection) : PostResult :=
  let rooms := processDetections fmt threshold iw ih 0 detections
  let rooms2 :=
    if filterOverlaps ∧ 1 < rooms.length then filterOverlappingBoundaries rooms
    else rooms
  { rooms := rooms2, detectionCount := rooms2.length, outputFormat := fmt,
    confidenceThreshold := threshold,
    filteredCount := (detections.length : Int) - rooms2.length }

/-! ## Job model (src/models/job.py) -/

/-- `JobStatus` enum. -/
inductive JobStatus where
  | pending
  | processing
  | completed
  | failed
  | cancelled
deriving DecidableEq, Repr

/-- The Job record. Timestamps are opaque strings (ISO 8601 in the code);
the `error` dict is an opaque payload. A present-but-empty Python value
(falsy `''` or `{}`) is modelled as `none`. -/
structure Job where
  job_id : String
  status : JobStatus
  created_at : String
  updated_at : String
  blueprint_s3_key : Option String
  blueprint_format : Option String
  blueprint_hash : Option String
  result_s3_key : Option String
  error : Option String
deriving DecidableEq, Repr

/-- `Job.update_status`: sets the status, refreshes `updated_at` (the
fresh clock reading is passed in as `now`) and overwrites `error` only
when a truthy error payload is supplied — an existing error is never
cleared. -/
def updateStatus (j : Job) (newStatus : JobStatus) (error : Option String)
    (now : String) : Job :=
  { j with
    status := newStatus
    updated_at := now
    error := (match error with
      | some e => some e
      | none => j.error) }

/-- `Job.can_be_cancelled`. -/
def canBeCancelled (j : Job) : Bool :=
  j.status = JobStatus.pending ∨ j.status = JobStatus.processing

/-- The truthy blueprint-format check of `Job.validate`:
`if self.blueprint_format and self.blueprint_format.lower() not in [...]`. -/
def blueprintFormatBad (f : Option String) : Bool :=
  match f with
  | none => false
  | some s => s ≠ "" ∧ ¬ (["png", "jpg", "pdf"] : List String).contains s.toLower

/-- The check `self.job_id.startswith('job_')`, as a prefix test on the
character data (`String.startsWith` itself does not reduce in the kernel). -/
def jobIdPrefixOk (jobId : String) : Bool :=
  "job_".data.isPrefixOf jobId.data

/-- `Job.validate`: returns `True` or raises `ValueError` (modelled as
`Except`); the checks in source order. -/
def validateJob (j : Job) : Except String Bool :=
  if j.job_id = "" then Except.error "job_id is required"
  else if ¬ jobIdPrefixOk j.job_id then
    Except.error "job_id must start with job_"
  else if blueprintFormatBad j.blueprint_format then
    Except.error "blueprint_format must be one of: png, jpg, pdf"
  else if j.status = JobStatus.failed ∧ j.error = none then
    Except.error "error is required when status is FAILED"
  else Except.ok true

/-! ## Job cancellation (src/services/job_service.py, `cancel_job`) -/

/-- The failures `cancel_job` reports: `JobNotFoundError` and
`JobAlreadyCompletedError(current_status)`. -/
inductive CancelError where
  | notFound
  | alreadyCompleted (currentStatus : JobStatus)
deriving DecidableEq, Repr

/-- `JobService.cancel_job`, sequentialised against two store snapshots:
`r0` is what the initial `get_job` read returns, `s1` is the record at
conditional-write time (and at any re-read after a guard failure; a
concurrent writer may have changed it between the two). The conditional
update succeeds exactly when status and `updated_at` still match the
first read. On guard failure the record is re-read: if a concurrent
cancel already drove it to CANCELLED that record is returned as success,
otherwise `JobAlreadyCompletedError` carries the observed status. A
vanished record (`s1 = none`) surfaces the re-read `JobNotFoundError`. -/
def cancelJob (r0 : Option Job) (s1 : Option Job) (now : String) :
    Except CancelError Job :=
  match r0 with
  | none => Except.error CancelError.notFound
  | some j =>
    if j.status = JobStatus.cancelled then
      Except.error (CancelError.alreadyCompleted j.status)
    else if ¬ canBeCancelled j then
      Except.error (CancelError.alreadyCompleted j.status)
    else
      let j2 := updateStatus j JobStatus.cancelled none now
      match s1 with
      | none => Except.error CancelError.notFound
      | some cur =>
        if cur.status = j.status ∧ cur.updated_at = j.updated_at then
          Except.ok j2
        else if cur.status = JobStatus.cancelled then
          Except.ok cur
        else
          Except.error (CancelError.alreadyCompleted cur.status)

/-! ## Retry executor (src/utils/retry.py) -/

/-- The configuration of `retry_aws_call`; defaults are
`DEFAULT_MAX_RETRIES = 3`, `DEFAULT_INITIAL_DELAY = 1`,
`DEFAULT_MAX_DELAY = 8`, `DEFAULT_BACKOFF_MULTIPLIER = 2`. -/
structure RetryConfig where
  maxRetries : Nat
  initialDelay : ℚ
  maxDelay : ℚ
  multiplier : ℚ
deriving DecidableEq, Repr

def defaultRetryConfig : RetryConfig :=
  { maxRetries := 3, initialDelay := 1, maxDelay := 8, multiplier := 2 }

/-- `min(initial_delay * multiplier ** attempt, max_delay)`, the value the
uniform jitter is scaled from. -/
def cappedDelay (cfg : RetryConfig) (attempt : Nat) : ℚ :=
  min (cfg.initialDelay * cfg.multiplier ^ attempt) cfg.maxDelay

/-- `exponential_backoff_delay`: capped exponential delay plus the jitter
drawn by `random.uniform(0, delay * 0.25)` (the draw is passed in; claims
constrain it to `[0, delay/4]`). -/
def exponentialBackoffDelay (cfg : RetryConfig) (attempt : Nat) (jitter : ℚ) : ℚ :=
  cappedDelay cfg attempt + jitter

/-- Observable run of the retry loop: final outcome, number of
invocations of the wrapped callable, and the sleeps performed. -/
structure RetryTrace (E A : Type) where
  result : Except E A
  calls : Nat
  delays : List ℚ
deriving Repr

/-- The `for attempt in range(max_retries + 1)` loop of `retry_aws_call`
from attempt `a` on: call the operation; on success return; on an error
that is not retryable (`is_retryable_error`) or with no attempts left
re-raise immediately; otherwise sleep the jittered backoff delay and
retry. `outcomes k` is what the wrapped callable does on its `k`-th
invocation; `jitters k` is the jitter drawn before the sleep after
attempt `k`. -/
def retryFrom {E A : Type} (outcomes : Nat → Except E A) (retryable : E → Bool)
    (cfg : RetryConfig) (jitters : Nat → ℚ) (a : Nat) : RetryTrace E A :=
  match outcomes a with
  | Except.ok v => { result := Except.ok v, calls := 1, delays := [] }
  | Except.error e =>
    if h : retryable e = false ∨ cfg.maxRetries ≤ a then
      { result := Except.error e, calls := 1, delays := [] }
    else
      let t := retryFrom outcomes retryable cfg jitters (a + 1)
      { result := t.result, calls := t.calls + 1,
        delays := exponentialBackoffDelay cfg a (jitters a) :: t.delays }
termination_by cfg.maxRetries - a
decreasing_by
  push_neg at h
  omega

/-- `retry_aws_call func`. -/
def retryAwsCall {E A : Type} (outcomes : Nat → Except E A) (retryable : E → Bool)
    (cfg : RetryConfig) (jitters : Nat → ℚ) : RetryTrace E A :=
  retryFrom outcomes retryable cfg jitters 0

/-! ## Preview cache and stage 1 (src/services/preview_service.py,
src/pipeline/stage_1_preview.py)

The stage is polymorphic in the Textract payload type `T` and the room
list type `Rv` (the claims settled here do not depend on their internals;
`detect_rooms` is passed in as the function it is). -/

def MODEL_VERSION : String := "1.0.0"

/-- `f"preview:{blueprint_hash}:{model_version}"`. -/
def previewCacheKey (blueprintHash modelVersion : String) : String :=
  "preview:" ++ blueprintHash ++ ":" ++ modelVersion

/-- `f"cache/textract/{job_id}/analysis.json"`. -/
def textractKey (jobId : String) : String :=
  "cache/textract/" ++ jobId ++ "/analysis.json"

/-- The `timing_metrics` sub-record of a stage-1 preview result. -/
structure TimingMetrics where
  textractSeconds : ℚ
  roomDetectionSeconds : ℚ
  totalSeconds : ℚ
deriving DecidableEq, Repr

/-- The `preview_result` dictionary built by the stage-1 handler. -/
structure PreviewResult (Rv : Type) where
  job_id : String
  stage : String
  rooms : Rv
  processing_time_seconds : ℚ
  timestamp : String
  timing : TimingMetrics
deriving DecidableEq, Repr

/-- The DynamoDB item `store_preview_cache` writes (keyed by the cache
key, with model version and TTL bookkeeping; `timing_metrics` is NOT
stored). -/
structure CacheItem (Rv : Type) where
  cacheKey : String
  job_id : String
  stage : String
  rooms : Rv
  processing_time_seconds : ℚ
  timestamp : String
  model_version : String
  expires_at : Int
deriving DecidableEq, Repr

/-- The dictionary `get_cached_preview` rebuilds from a cached item on a
hit: exactly the five stored result fields. -/
structure CachedPreview (Rv : Type) where
  job_id : String
  stage : String
  rooms : Rv
  processing_time_seconds : ℚ
  timestamp : String
deriving DecidableEq, Repr

def cacheItemView {Rv : Type} (it : CacheItem Rv) : CachedPreview Rv :=
  { job_id := it.job_id, stage := it.stage, rooms := it.rooms,
    processing_time_seconds := it.processing_time_seconds,
    timestamp := it.timestamp }

/-- `PreviewService.get_cached_preview`: `None` on a miss and also on any
lookup failure (`readOk = false`); the view of the item on a hit. -/
def getCachedPreview {Rv : Type} (readOk : Bool)
    (cache : String → Option (CacheItem Rv)) (blueprintHash modelVersion : String) :
    Option (CachedPreview Rv) :=
  if readOk then (cache (previewCacheKey blueprintHash modelVersion)).map cacheItemView
  else none

def mkCacheItem {Rv : Type} (blueprintHash : String) (pr : PreviewResult Rv)
    (modelVersion : String) (expiresAt : Int) : CacheItem Rv :=
  { cacheKey := previewCacheKey blueprintHash modelVersion, job_id := pr.job_id,
    stage := pr.stage, rooms := pr.rooms,
    processing_time_seconds := pr.processing_time_seconds,
    timestamp := pr.timestamp, model_version := modelVersion,
    expires_at := expiresAt }

/-- `PreviewService.store_preview_cache`: returns `True` on success and
`False` on any storage failure — it never raises. `writeOk` is the
outcome of the underlying DynamoDB put. -/
def storePreviewCache {Rv : Type} (writeOk : Bool)
    (cache : String → Option (CacheItem Rv)) (blueprintHash : String)
    (pr : PreviewResult Rv) (modelVersion : String) (expiresAt : Int) :
    Bool × (String → Option (CacheItem Rv)) :=
  if writeOk then
    (true, fun k =>
      if k = previewCacheKey blueprintHash modelVersion then
        some (mkCacheItem blueprintHash pr modelVersion expiresAt)
      else cache k)
  else (false, cache)

/-- The S3 object `store_textract_results` writes: the Textract payload
merged with `job_id` and `stored_at` metadata. -/
structure StoredTextract (T : Type) where
  payload : T
  job_id : String
  stored_at : String
deriving DecidableEq, Repr

/-- `PreviewService.store_textract_results`: on success the S3 key, on
ANY storage failure the empty string — it never raises, so a lost OCR
artifact cannot fail stage 1. -/
def storeTextractResults {T : Type} (writeOk : Bool)
    (blob : String → Option (StoredTextract T)) (jobId : String) (tr : T)
    (storedAt : String) : String × (String → Option (StoredTextract T)) :=
  if writeOk then
    (textractKey jobId,
     fun k => if k = textractKey jobId then some ⟨tr, jobId, storedAt⟩ else blob k)
  else ("", blob)

/-- `PreviewService.get_textract_results` (reads assumed healthy). -/
def getTextractResults {T : Type} (blob : String → Option (StoredTextract T))
    (jobId : String) : Option (StoredTextract T) :=
  blob (textractKey jobId)

/-- `if not job.blueprint_s3_key:` (Python truthiness). -/
def blueprintKeyMissing (j : Job) : Bool :=
  match j.blueprint_s3_key with
  | none => true
  | some s => s = ""

/-- `if job.blueprint_hash:` (Python truthiness): the hash used for
caching, when present and nonempty. -/
def jobHashValue (j : Job) : Option String :=
  match j.blueprint_hash with
  | none => none
  | some h => if h = "" then none else some h

/-- Environment of one stage-1 invocation: the job-store read for the
requested job, collaborator outcomes, the cache and blob states, the OCR
response, the detector, and the clock readings. -/
structure Stage1Env (T Rv : Type) where
  job : Option Job
  bucketConfigured : Bool
  cache : String → Option (CacheItem Rv)
  cacheReadOk : Bool
  cacheWriteOk : Bool
  blobWriteOk : Bool
  blob : String → Option (StoredTextract T)
  ocr : T
  detect : T → Rv
  processingTime : ℚ
  timing : TimingMetrics
  now : String
  expiresAt : Int

/-- The handler response: a fresh 200 success, a cached 200 success, or
an error response with HTTP status, stable error code and detail pairs. -/
inductive Stage1Resp (Rv : Type) where
  | successFresh (r : PreviewResult Rv)
  | successCached (c : CachedPreview Rv)
  | failure (statusCode : Nat) (code : String) (details : List (String × String))
deriving DecidableEq, Repr

/-- What one stage-1 run produces and leaves behind: the response, the
cache and blob states afterwards, and how often the OCR collaborator
(Textract `analyze_document`) was invoked. -/
structure Stage1Out (T Rv : Type) where
  resp : Stage1Resp Rv
  cache : String → Option (CacheItem Rv)
  blob : String → Option (StoredTextract T)
  ocrCalls : Nat

/-- The stage-1 `lambda_handler` for a request carrying `jobId` (the
`job_id is required` guard is upstream of everything modelled here).
Cache check first — a hit returns immediately with no OCR call; on a
miss run Textract, store the OCR artifact (failures tolerated), detect
rooms, build the preview result and write-then-verify the cache: a
reported cache-store failure fails the whole stage with a 503
`PREVIEW_CACHE_STORE_FAILED` carrying `job_id` and `blueprint_hash`.
`store_preview_cache` never raises, so the handler's
`except ServiceUnavailableError` / `except Exception` arms around it are
dead code; only the `if not cache_stored` arm is reachable. -/
def stage1Handler {T Rv : Type} (env : Stage1Env T Rv) (jobId : String) :
    Stage1Out T Rv :=
  match env.job with
  | none => ⟨Stage1Resp.failure 404 "JOB_NOT_FOUND" [("job_id", jobId)],
      env.cache, env.blob, 0⟩
  | some job =>
    if blueprintKeyMissing job then
      ⟨Stage1Resp.failure 400 "INVALID_JOB" [("job_id", jobId)],
        env.cache, env.blob, 0⟩
    else if env.bucketConfigured = false then
      ⟨Stage1Resp.failure 500 "CONFIGURATION_ERROR" [], env.cache, env.blob, 0⟩
    else
      let cached : Option (CachedPreview Rv) :=
        match jobHashValue job with
        | some h => getCachedPreview env.cacheReadOk env.cache h MODEL_VERSION
        | none => none
      match cached with
      | some c => ⟨Stage1Resp.successCached c, env.cache, env.blob, 0⟩
      | none =>
        let tr := env.ocr
        let stored := storeTextractResults env.blobWriteOk env.blob jobId tr env.now
        let rooms := env.detect tr
        let pr : PreviewResult Rv :=
          { job_id := jobId, stage := "preview", rooms := rooms,
            processing_time_seconds := env.processingTime,
            timestamp := env.now, timing := env.timing }
        match jobHashValue job with
        | some h =>
          let putRes := storePreviewCache env.cacheWriteOk env.cache h pr
            MODEL_VERSION env.expiresAt
          if putRes.1 then
            ⟨Stage1Resp.successFresh pr, putRes.2, stored.2, 1⟩
          else
            ⟨Stage1Resp.failure 503 "PREVIEW_CACHE_STORE_FAILED"
              [("job_id", jobId), ("blueprint_hash", h), ("service", "DynamoDB")],
              putRes.2, stored.2, 1⟩
        | none => ⟨Stage1Resp.successFresh pr, env.cache, stored.2, 1⟩

/-! ## Stage 2 artifact load (src/pipeline/stage_2_intermediate.py) -/

/-- How far the stage-2 handler gets while loading its inputs. -/
inductive Stage2Load (T : Type) where
  | jobNotFound
  | textractNotFound (statusCode : Nat) (code : String)
  | loaded (tr : StoredTextract T)
deriving DecidableEq, Repr

/-- The stage-2 prefix: fetch the job, then the stage-1 OCR artifact; an
absent artifact fails fast with the 404 `TEXTRACT_RESULTS_NOT_FOUND`. -/
def stage2LoadTextract {T : Type} (job : Option Job)
    (blob : String → Option (StoredTextract T)) (jobId : String) : Stage2Load T :=
  match job with
  | none => Stage2Load.jobNotFound
  | some _ =>
    match getTextractResults blob jobId with
    | none => Stage2Load.textractNotFound 404 "TEXTRACT_RESULTS_NOT_FOUND"
    | some tr => Stage2Load.loaded tr

/-! ## Notification fan-out (src/services/websocket_service.py) -/

/-- The transport outcome of one `post_to_connection` delivery (after the
wrapped retry): success, `GoneException`, another AWS client error
(retryable or not), or an unexpected exception. -/
inductive SendOutcome where
  | ok
  | gone
  | clientError (retryable : Bool)
  | otherError
deriving DecidableEq, Repr

/-- The in-process `_connection_cache : job_id -> [connection_ids]`,
as an association list. -/
abbrev ConnCache := List (String × List String)

/-- The linear scan of `send_message`'s GoneException arm: the first
cached job whose connection list contains the gone connection. -/
def findJobForConnection (cache : ConnCache) (cid : String) : Option String :=
  (cache.find? (fun p => p.2.contains cid)).map (fun p => p.1)

/-- Drop one occurrence of the connection from an entry, deleting the
entry when its list empties. -/
def removeFromEntry (cid : String) (p : String × List String) :
    Option (String × List String) :=
  let conns := p.2.erase cid
  if conns = [] then none else some (p.1, conns)

/-- `_remove_connection_from_cache`: with a job id, remove the connection
from that job's entry only; without one, remove it from every entry. -/
def removeConnectionFromCache (cache : ConnCache) (cid : String)
    (jobIdOpt : Option String) : ConnCache :=
  match jobIdOpt with
  | some j => cache.filterMap (fun p =>
      if p.1 = j then
        (if p.2.contains cid then removeFromEntry cid p else some p)
      else some p)
  | none => cache.filterMap (fun p =>
      if p.2.contains cid then removeFromEntry cid p else some p)

/-- `WebSocketService.send_message`: `True` exactly on transport success;
every failure is caught and mapped to `False` (the function never
raises). A gone connection is additionally evicted from the cache entry
found by `findJobForConnection`. -/
def sendMessage (cache : ConnCache) (cid : String) (outcome : SendOutcome) :
    Bool × ConnCache :=
  match outcome with
  | SendOutcome.ok => (true, cache)
  | SendOutcome.gone =>
    (false, removeConnectionFromCache cache cid (findJobForConnection cache cid))
  | SendOutcome.clientError _ => (false, cache)
  | SendOutcome.otherError => (false, cache)

/-- `get_connections_for_job`: cache first; on a miss query the store
(`db`) and cache the result; a failed query yields `[]` uncached. -/
def getConnectionsForJob (cache : ConnCache) (queryOk : Bool)
    (db : String → List String) (jobId : String) : List String × ConnCache :=
  match cache.find? (fun p => p.1 = jobId) with
  | some p => (p.2, cache)
  | none =>
    if queryOk then (db jobId, cache ++ [(jobId, db jobId)])
    else ([], cache)

/-- The delivery loop of `send_message_to_job`: one `send_message` per
connection in order, counting successes; a failed delivery moves on to
the next connection. -/
def sendLoop (outcomes : String → SendOutcome) :
    List String → ConnCache → Nat → Nat × ConnCache
  | [], cache, acc => (acc, cache)
  | cid :: rest, cache, acc =>
    let r := sendMessage cache cid (outcomes cid)
    sendLoop outcomes rest r.2 (if r.1 then acc + 1 else acc)

/-- `WebSocketService.send_message_to_job`: look up the subscribed
connections, deliver to each independently, return the success count
(and, for observability here, the final cache and the list of attempted
connections). -/
def sendMessageToJob (cache : ConnCache) (queryOk : Bool)
    (db : String → List String) (jobId : String)
    (outcomes : String → SendOutcome) : Nat × ConnCache × List String :=
  let got := getConnectionsForJob cache queryOk db jobId
  if got.1 = [] then (0, got.2, got.1)
  else
    let run := sendLoop outcomes got.1 got.2 0
    (run.1, run.2, got.1)

/-! ## Concrete inputs used by witnesses and counterexamples -/

/-- NMS-chain input A: box `[0,0,10,14]`, confidence `0.9`. -/
def chainA : Detection := ⟨[0, 0, 10, 14], mkRat 9 10, "", []⟩

/-- NMS-chain input B: box `[0,4,10,18]`, confidence `0.8`;
IoU(A,B) = 5/9 > 0.5. -/
def chainB : Detection := ⟨[0, 4, 10, 18], mkRat 8 10, "", []⟩

/-- NMS-chain input C: box `[0,8,10,22]`, confidence `0.7`;
IoU(B,C) = 5/9 > 0.5 but IoU(A,C) = 3/11 ≤ 0.5. -/
def chainC : Detection := ⟨[0, 8, 10, 22], mkRat 7 10, "", []⟩

/-- A below-threshold candidate (confidence `0.5`). -/
def lowConfDet : Detection := ⟨[0, 0, 5, 5], mkRat 1 2, "", []⟩

/-- A surviving candidate at input index 1 (confidence `0.9`). -/
def highConfDet : Detection := ⟨[0, 0, 10, 10], mkRat 9 10, "", []⟩

/-- The out-of-bounds boundary example `[1100,50,1200,300]`. -/
def oobDet : Detection := ⟨[1100, 50, 1200, 300], mkRat 9 10, "", []⟩

/-- The in-bounds boundary example `[50,50,200,300]`. -/
def inbDet : Detection := ⟨[50, 50, 200, 300], mkRat 9 10, "", []⟩

/-- §8 scenario candidate `[50,50,200,300] @ 0.92`. -/
def overlapHi : Detection := ⟨[50, 50, 200, 300], mkRat 92 100, "", []⟩

/-- §8 scenario candidate `[60,60,210,310] @ 0.80`. -/
def overlapLo : Detection := ⟨[60, 60, 210, 310], mkRat 80 100, "", []⟩

/-- A PENDING job as read by `cancel_job`. -/
def pendingJob : Job :=
  { job_id := "job_a", status := JobStatus.pending, created_at := "t0",
    updated_at := "t0", blueprint_s3_key := some "blueprints/job_a/b.png",
    blueprint_format := some "png", blueprint_hash := some "abc123",
    result_s3_key := none, error := none }

/-- A COMPLETED job (terminal). -/
def completedJob : Job :=
  { job_id := "job_b", status := JobStatus.completed, created_at := "t0",
    updated_at := "t1", blueprint_s3_key := some "blueprints/job_b/b.png",
    blueprint_format := some "png", blueprint_hash := some "def456",
    result_s3_key := some "results/job_b.json", error := none }

/-- The record a concurrent cancel left behind: CANCELLED with a newer
`updated_at`, so the guard of the conditional write fails. -/
def concurrentlyCancelledJob : Job :=
  { pendingJob with
    status := JobStatus.cancelled
    updated_at := "t1" }

/-- The record a racing pipeline left behind: FAILED with a newer
`updated_at`. -/
def concurrentlyFailedJob : Job :=
  { pendingJob with
    status := JobStatus.failed
    updated_at := "t1"
    error := some "boom" }

/-- A PENDING job carrying an error payload: accepted by `validate`. -/
def pendingJobWithError : Job :=
  { job_id := "job_x", status := JobStatus.pending, created_at := "t0",
    updated_at := "t0", blueprint_s3_key := none, blueprint_format := none,
    blueprint_hash := none, result_s3_key := none, error := some "boom" }

/-- A concrete healthy stage-1 environment over `T = Rv = Nat`. -/
def witnessEnv : Stage1Env Nat Nat :=
  { job := some pendingJob, bucketConfigured := true, cache := fun _ => none,
    cacheReadOk := true, cacheWriteOk := true, blobWriteOk := true,
    blob := fun _ => none, ocr := 7, detect := fun t => t + 1,
    processingTime := 1, timing := ⟨1, 0, 1⟩, now := "t1", expiresAt := 100 }

/-- The same environment with a failing preview-cache write. -/
def witnessEnvNoCacheWrite : Stage1Env Nat Nat :=
  { witnessEnv with cacheWriteOk := false }

/-- The same environment with a failing OCR-artifact blob write. -/
def witnessEnvNoBlobWrite : Stage1Env Nat Nat :=
  { witnessEnv with blobWriteOk := false }

/-! ### Post-processor lemmas -/

/-- Division-free evaluation of the overlap test: IoU strictly above one
half is (given the guards) union area strictly below twice the
intersection area. -/
theorem hasSignificantOverlap_eval (b e : Box) :
    hasSignificantOverlap b e =
      decide ((max b.x0 e.x0 < min b.x1 e.x1 ∧ max b.y0 e.y0 < min b.y1 e.y1) ∧
        (0 < boxArea b + boxArea e - interArea b e) ∧
        (boxArea b + boxArea e - interArea b e < 2 * interArea b e)) := by
  unfold hasSignificantOverlap
  split
  · next hcond =>
    split
    · next hu =>
      simp only [decide_eq_decide]
      rw [lt_div_iff₀ hu]
      constructor
      · intro h1
        exact ⟨hcond, hu, by linarith⟩
      · intro h1
        linarith [h1.2.2]
    · next hu =>
      symm
      simp only [decide_eq_false_iff_not]
      intro hcontra
      exact hu hcontra.2.1
  · next hcond =>
    symm
    simp only [decide_eq_false_iff_not]
    intro hcontra
    exact hcond hcontra.1

theorem interArea_comm (b e : Box) : interArea b e = interArea e b := by
  simp [interArea, max_comm, min_comm]

theorem hasSignificantOverlap_comm (b e : Box) :
    hasSignificantOverlap b e = hasSignificantOverlap e b := by
  rw [hasSignificantOverlap_eval, hasSignificantOverlap_eval]
  simp only [decide_eq_decide]
  constructor
  · rintro ⟨⟨h1, h2⟩, h3, h4⟩
    refine ⟨⟨by rwa [max_comm, min_comm], by rwa [max_comm, min_comm]⟩, ?_, ?_⟩
    · rw [← interArea_comm]
      linarith
    · rw [← interArea_comm]
      linarith
  · rintro ⟨⟨h1, h2⟩, h3, h4⟩
    refine ⟨⟨by rwa [max_comm, min_comm], by rwa [max_comm, min_comm]⟩, ?_, ?_⟩
    · rw [interArea_comm]
      linarith
    · rw [interArea_comm]
      linarith

theorem boxPolygon_bounds (iw ih : Option ℚ) (b : Box)
    (hx : b.x0 < b.x1) (hy : b.y0 < b.y1) (hb : boxInBounds iw ih b = true) :
    ∀ p ∈ boxPolygon b, vertexInBounds iw ih p = true := by
  intro p hp
  match iw, ih with
  | none, _ =>
    simp [vertexInBounds]
  | some w, none =>
    simp [vertexInBounds]
  | some w, some h =>
    simp only [boxInBounds, decide_eq_true_eq] at hb
    obtain ⟨h1, h2, h3, h4⟩ := hb
    simp only [boxPolygon, List.mem_cons, List.not_mem_nil, or_false] at hp
    rcases hp with rfl | rfl | rfl | rfl <;>
      · simp only [vertexInBounds, decide_eq_true_eq]
        refine ⟨by linarith, by linarith, by linarith, by linarith⟩

theorem growthPolygon_bounds (iw ih : Option ℚ) (b : Box) (verts : List (List ℚ))
    (hx : b.x0 < b.x1) (hy : b.y0 < b.y1) (hb : boxInBounds iw ih b = true) :
    ∀ p ∈ growthPolygon iw ih b verts, vertexInBounds iw ih p = true := by
  intro p hp
  unfold growthPolygon at hp
  split at hp
  · split at hp
    · split at hp
      · next hall =>
        exact List.all_eq_true.mp hall p hp
      · exact boxPolygon_bounds iw ih b hx hy hb p hp
    · exact boxPolygon_bounds iw ih b hx hy hb p hp
  · exact boxPolygon_bounds iw ih b hx hy hb p hp

/-- Everything `processDetection` guarantees about an emitted room: the
threshold held, the box is well-ordered and in bounds, the polygon is in
bounds, the id is `room_{idx+1:03d}` and the confidence is the
candidate's. -/
theorem processDetection_some {fmt : OutputFormat} {threshold : ℚ}
    {iw ih : Option ℚ} {idx : Nat} {d : Detection} {r : Room}
    (h : processDetection fmt threshold iw ih idx d = some r) :
    threshold ≤ r.confidence ∧ r.confidence = d.confidence ∧
    r.id = roomId (idx + 1) ∧
    r.boundingBox.x0 < r.boundingBox.x1 ∧ r.boundingBox.y0 < r.boundingBox.y1 ∧
    boxInBounds iw ih r.boundingBox = true ∧
    (∀ p ∈ r.polygon, vertexInBounds iw ih p = true) := by
  unfold processDetection at h
  split at h
  · exact absurd h (by simp)
  · next hconf =>
    match hb : d.bbox with
    | [] => rw [hb] at h; exact absurd h (by simp)
    | [_] => rw [hb] at h; exact absurd h (by simp)
    | [_, _] => rw [hb] at h; exact absurd h (by simp)
    | [_, _, _] => rw [hb] at h; exact absurd h (by simp)
    | x0 :: y0 :: x1 :: y1 :: rest =>
      rw [hb] at h
      simp only at h
      split at h
      · exact absurd h (by simp)
      · next hord =>
        split at h
        · next hbounds =>
          push_neg at hord
          obtain ⟨hx, hy⟩ := hord
          cases h
          refine ⟨le_of_not_lt hconf, rfl, rfl, hx, hy, hbounds, ?_⟩
          intro p hp
          cases fmt with
          | mvp =>
            exact boxPolygon_bounds iw ih ⟨x0, y0, x1, y1⟩ hx hy hbounds p hp
          | growth =>
            exact growthPolygon_bounds iw ih ⟨x0, y0, x1, y1⟩ d.vertices hx hy hbounds p hp
        · exact absurd h (by simp)

/-- Each room produced by the enumeration loop comes from an input index. -/
theorem mem_processDetections {fmt : OutputFormat} {threshold : ℚ}
    {iw ih : Option ℚ} {r : Room} :
    ∀ {i : Nat} {ds : List Detection}, r ∈ processDetections fmt threshold iw ih i ds →
    ∃ k d, ds.get? k = some d ∧ processDetection fmt threshold iw ih (i + k) d = some r := by
  intro i ds
  induction ds generalizing i with
  | nil => simp [processDetections]
  | cons d ds ih2 =>
    intro hr
    rw [processDetections] at hr
    cases hpd : processDetection fmt threshold iw ih i d with
    | some r0 =>
      rw [hpd] at hr
      rcases List.mem_cons.mp hr with rfl | hr2
      · exact ⟨0, d, rfl, by simpa using hpd⟩
      · obtain ⟨k, d2, hget, hp2⟩ := ih2 hr2
        exact ⟨k + 1, d2, by simpa using hget, by rw [show i + (k + 1) = i + 1 + k by omega]; exact hp2⟩
    | none =>
      rw [hpd] at hr
      obtain ⟨k, d2, hget, hp2⟩ := ih2 hr
      exact ⟨k + 1, d2, by simpa using hget, by rw [show i + (k + 1) = i + 1 + k by omega]; exact hp2⟩

theorem mem_greedyKeep {x : Room} :
    ∀ {rs kept : List Room}, x ∈ greedyKeep kept rs → x ∈ kept ∨ x ∈ rs := by
  intro rs
  induction rs with
  | nil => intro kept h; exact Or.inl (by simpa [greedyKeep] using h)
  | cons a rest ih =>
    intro kept h
    rw [greedyKeep] at h
    split at h
    · rcases ih h with hk | hr
      · exact Or.inl hk
      · exact Or.inr (List.mem_cons_of_mem a hr)
    · rcases ih h with hk | hr
      · rcases List.mem_append.mp hk with hk2 | hk2
        · exact Or.inl hk2
        · rw [List.mem_singleton] at hk2
          subst hk2
          exact Or.inr (List.mem_cons_self x rest)
      · exact Or.inr (List.mem_cons_of_mem a hr)

theorem subset_greedyKeep {x : Room} :
    ∀ {rs kept : List Room}, x ∈ kept → x ∈ greedyKeep kept rs := by
  intro rs
  induction rs with
  | nil => intro kept h; simpa [greedyKeep] using h
  | cons a rest ih =>
    intro kept h
    rw [greedyKeep]
    split
    · exact ih h
    · exact ih (List.mem_append_left _ h)

theorem greedyKeep_pairwise :
    ∀ (rs kept : List Room),
    List.Pairwise (fun a b => hasSignificantOverlap b.boundingBox a.boundingBox = false) kept →
    List.Pairwise (fun a b => hasSignificantOverlap b.boundingBox a.boundingBox = false)
      (greedyKeep kept rs) := by
  intro rs
  induction rs with
  | nil => intro kept hk; simpa [greedyKeep] using hk
  | cons a rest ih =>
    intro kept hk
    rw [greedyKeep]
    split
    · exact ih kept hk
    · next hov =>
      refine ih (kept ++ [a]) ?_
      rw [List.pairwise_append]
      refine ⟨hk, List.pairwise_singleton _ _, ?_⟩
      intro x hx y hy
      rw [List.mem_singleton] at hy
      have hov2 : (kept.any fun e => hasSignificantOverlap a.boundingBox e.boundingBox) = false := by
        simpa using hov
      have hxf := List.any_eq_false.mp hov2 x hx
      rw [hy]
      simpa using hxf

theorem greedyKeep_dropped :
    ∀ (rs kept : List Room), List.Pairwise confGe rs →
    (∀ e ∈ kept, ∀ x ∈ rs, x.confidence ≤ e.confidence) →
    ∀ r, r ∈ rs → r ∉ greedyKeep kept rs →
    ∃ s ∈ greedyKeep kept rs,
      hasSignificantOverlap r.boundingBox s.boundingBox = true ∧
      r.confidence ≤ s.confidence := by
  intro rs
  induction rs with
  | nil => simp
  | cons a rest ih =>
    intro kept hsorted hkept r hr hout
    have hpw := List.pairwise_cons.mp hsorted
    by_cases hov : (kept.any fun e => hasSignificantOverlap a.boundingBox e.boundingBox) = true
    · rw [greedyKeep, if_pos hov] at hout ⊢
      rcases List.mem_cons.mp hr with rfl | hr2
      · obtain ⟨e, he, hoe⟩ := List.any_eq_true.mp hov
        refine ⟨e, subset_greedyKeep he, by simpa using hoe, ?_⟩
        exact hkept e he r (List.mem_cons_self _ _)
      · exact ih kept hpw.2
          (fun e he x hx => hkept e he x (List.mem_cons_of_mem a hx)) r hr2 hout
    · rw [greedyKeep, if_neg hov] at hout ⊢
      rcases List.mem_cons.mp hr with rfl | hr2
      · exact absurd (subset_greedyKeep (List.mem_append_right _ (List.mem_singleton_self r))) hout
      · refine ih (kept ++ [a]) hpw.2 ?_ r hr2 hout
        intro e he x hx
        rcases List.mem_append.mp he with he2 | he2
        · exact hkept e he2 x (List.mem_cons_of_mem a hx)
        · rw [List.mem_singleton] at he2
          subst he2
          exact hpw.1 x hx

/-- Rooms of the post-processor output all come from the pre-suppression
survivor list. -/
theorem mem_postprocess_rooms {fmt : OutputFormat} {threshold : ℚ}
    {iw ih : Option ℚ} {fo : Bool} {dets : List Detection} {r : Room}
    (h : r ∈ (postprocessOutput fmt threshold iw ih fo dets).rooms) :
    r ∈ processDetections fmt threshold iw ih 0 dets := by
  unfold postprocessOutput at h
  simp only at h
  split at h
  · unfold filterOverlappingBoundaries at h
    split at h
    · exact h
    · rcases mem_greedyKeep h with hk | hs
      · simp at hk
      · exact (List.mem_insertionSort confGe).mp hs
  · exact h

theorem pairwise_of_length_le_one {α : Type} {R : α → α → Prop} {l : List α}
    (h : l.length ≤ 1) : List.Pairwise R l := by
  match l with
  | [] => exact List.Pairwise.nil
  | [x] => exact List.pairwise_singleton R x
  | x :: y :: t => simp at h

theorem postprocess_rooms_eq (fmt : OutputFormat) (threshold : ℚ)
    (iw ih : Option ℚ) (fo : Bool) (dets : List Detection) :
    (postprocessOutput fmt threshold iw ih fo dets).rooms =
      if fo ∧ 1 < (processDetections fmt threshold iw ih 0 dets).length then
        filterOverlappingBoundaries (processDetections fmt threshold iw ih 0 dets)
      else processDetections fmt threshold iw ih 0 dets := rfl

/-- C1 (corrected form, see the counterexample): with suppression enabled
the output of the post-processor (a) never contains a below-threshold
candidate, (b) contains no two rooms whose boxes overlap with IoU > 0.5
(in either orientation of the check), and (c) suppresses a surviving
candidate only in favour of some output room of confidence at least its
own whose box overlaps it with IoU > 0.5 — the greedy rule; the claim's
stronger reading, that of any overlapping pair the higher-confidence
member is the one in the output, fails on overlap chains. -/
theorem claim_C1 (fmt : OutputFormat) (threshold : ℚ) (iw ih : Option ℚ)
    (fo : Bool) (dets : List Detection) :
    (∀ r ∈ (postprocessOutput fmt threshold iw ih fo dets).rooms,
      threshold ≤ r.confidence) ∧
    (fo = true →
      List.Pairwise
        (fun a b => hasSignificantOverlap a.boundingBox b.boundingBox = false ∧
          hasSignificantOverlap b.boundingBox a.boundingBox = false)
        (postprocessOutput fmt threshold iw ih fo dets).rooms ∧
      (∀ r ∈ processDetections fmt threshold iw ih 0 dets,
        r ∉ (postprocessOutput fmt threshold iw ih fo dets).rooms →
        ∃ s ∈ (postprocessOutput fmt threshold iw ih fo dets).rooms,
          hasSignificantOverlap r.boundingBox s.boundingBox = true ∧
          r.confidence ≤ s.confidence)) := by
  constructor
  · intro r hr
    obtain ⟨k, d, _, hpd⟩ := mem_processDetections (mem_postprocess_rooms hr)
    exact (processDetection_some hpd).1
  · intro hfo
    subst hfo
    rw [postprocess_rooms_eq]
    by_cases hlen : 1 < (processDetections fmt threshold iw ih 0 dets).length
    · rw [if_pos ⟨rfl, hlen⟩]
      have hne : processDetections fmt threshold iw ih 0 dets ≠ [] := by
        intro hnil
        rw [hnil] at hlen
        simp at hlen
      unfold filterOverlappingBoundaries
      rw [if_neg hne]
      constructor
      · have hpw := greedyKeep_pairwise
          (List.insertionSort confGe (processDetections fmt threshold iw ih 0 dets))
          [] List.Pairwise.nil
        refine hpw.imp ?_
        intro a b hab
        exact ⟨by rw [hasSignificantOverlap_comm]; exact hab, hab⟩
      · intro r hr hout
        refine greedyKeep_dropped
          (List.insertionSort confGe (processDetections fmt threshold iw ih 0 dets))
          [] (List.sorted_insertionSort confGe _) ?_ r
          ((List.mem_insertionSort confGe).mpr hr) hout
        intro e he
        exact absurd he (List.not_mem_nil e)
    · rw [if_neg (fun hc => hlen hc.2)]
      constructor
      · exact pairwise_of_length_le_one (by omega)
      · intro r hr hout
        exact absurd hr hout

/-- C1 counterexample: on the chain A(0.9), B(0.8), C(0.7) with
IoU(A,B) > 0.5, IoU(B,C) > 0.5, IoU(A,C) ≤ 0.5, all three survive
validation, the output is A and C — so of the overlapping pair (B, C)
the surviving member is C although B has the strictly higher confidence,
refuting the claim's tie-break clause. -/
theorem claim_C1_counterexample :
    (processDetections OutputFormat.mvp (mkRat 7 10) none none 0
      [chainA, chainB, chainC]).map Room.id = ["room_001", "room_002", "room_003"] ∧
    (postprocessOutput OutputFormat.mvp (mkRat 7 10) none none true
      [chainA, chainB, chainC]).rooms.map Room.id = ["room_001", "room_003"] ∧
    hasSignificantOverlap ⟨0, 4, 10, 18⟩ ⟨0, 8, 10, 22⟩ = true ∧
    mkRat 7 10 < mkRat 8 10 := by
  refine ⟨by decide, ?_, ?_, by decide⟩
  · norm_num [postprocessOutput, processDetections, processDetection, boxInBounds,
      roomId, filterOverlappingBoundaries, greedyKeep, hasSignificantOverlap,
      boxArea, interArea, List.insertionSort, List.orderedInsert, confGe,
      boxPolygon, chainA, chainB, chainC, List.cons_ne_nil]
    all_goals decide
  · norm_num [hasSignificantOverlap, boxArea, interArea]

/-- C1 witness: the §8 overlapping pair `[50,50,200,300] @ 0.92` and
`[60,60,210,310] @ 0.80` — the threshold bound holds for the emitted
room and the suppressed candidate is dominated by an output room. -/
theorem claim_C1_witness :
    (mkRat 7 10 ≤
      (Room.mk "room_001" ⟨50, 50, 200, 300⟩
        (boxPolygon ⟨50, 50, 200, 300⟩) "" (mkRat 92 100)).confidence) ∧
    (∃ s ∈ (postprocessOutput OutputFormat.mvp (mkRat 7 10) none none true
        [overlapHi, overlapLo]).rooms,
      hasSignificantOverlap
        (Room.mk "room_002" ⟨60, 60, 210, 310⟩
          (boxPolygon ⟨60, 60, 210, 310⟩) "" (mkRat 80 100)).boundingBox
        s.boundingBox = true ∧
      (Room.mk "room_002" ⟨60, 60, 210, 310⟩
        (boxPolygon ⟨60, 60, 210, 310⟩) "" (mkRat 80 100)).confidence ≤
        s.confidence) := by
  constructor
  · refine (claim_C1 OutputFormat.mvp (mkRat 7 10) none none true
      [overlapHi, overlapLo]).1
      (Room.mk "room_001" ⟨50, 50, 200, 300⟩
        (boxPolygon ⟨50, 50, 200, 300⟩) "" (mkRat 92 100)) ?_
    norm_num [postprocessOutput, processDetections, processDetection, boxInBounds,
      roomId, filterOverlappingBoundaries, greedyKeep, hasSignificantOverlap,
      boxArea, interArea, List.insertionSort, List.orderedInsert, confGe,
      boxPolygon, overlapHi, overlapLo, List.cons_ne_nil]
    all_goals decide
  · refine ((claim_C1 OutputFormat.mvp (mkRat 7 10) none none true
      [overlapHi, overlapLo]).2 rfl).2
      (Room.mk "room_002" ⟨60, 60, 210, 310⟩
        (boxPolygon ⟨60, 60, 210, 310⟩) "" (mkRat 80 100)) ?_ ?_
    · decide
    · norm_num [postprocessOutput, processDetections, processDetection, boxInBounds,
        roomId, filterOverlappingBoundaries, greedyKeep, hasSignificantOverlap,
        boxArea, interArea, List.insertionSort, List.orderedInsert, confGe,
        boxPolygon, overlapHi, overlapLo, List.cons_ne_nil]

/-- C6: every emitted room has a well-ordered bounding box, and with
known image bounds every coordinate of its box and of its polygon lies
inside `[0,width] × [0,height]`; concretely, `[1100,50,1200,300]`
against a 1000-wide image is dropped while `[50,50,200,300]` is kept. -/
theorem claim_C6 :
    (∀ (fmt : OutputFormat) (threshold : ℚ) (iw ih : Option ℚ) (fo : Bool)
        (dets : List Detection) (w h : ℚ),
      ∀ r ∈ (postprocessOutput fmt threshold iw ih fo dets).rooms,
        r.boundingBox.x0 < r.boundingBox.x1 ∧ r.boundingBox.y0 < r.boundingBox.y1 ∧
        (iw = some w → ih = some h →
          (0 ≤ r.boundingBox.x0 ∧ 0 ≤ r.boundingBox.y0 ∧
           r.boundingBox.x1 ≤ w ∧ r.boundingBox.y1 ≤ h) ∧
          ∀ p ∈ r.polygon, 0 ≤ p.1 ∧ p.1 ≤ w ∧ 0 ≤ p.2 ∧ p.2 ≤ h)) ∧
    (postprocessOutput OutputFormat.mvp (mkRat 7 10) (some 1000) (some 1000) true
      [oobDet, inbDet]).rooms.map Room.boundingBox = [⟨50, 50, 200, 300⟩] := by
  constructor
  · intro fmt threshold iw ih fo dets w h r hr
    obtain ⟨k, d, _, hpd⟩ := mem_processDetections (mem_postprocess_rooms hr)
    obtain ⟨_, _, _, hx, hy, hbound, hpoly⟩ := processDetection_some hpd
    refine ⟨hx, hy, ?_⟩
    intro hiw hih
    subst hiw
    subst hih
    constructor
    · simpa [boxInBounds] using hbound
    · intro p hp
      simpa [vertexInBounds] using hpoly p hp
  · decide

/-- C6 witness: the kept boundary-example room is well-ordered and within
the 1000-wide image. -/
theorem claim_C6_witness :
    (Room.mk "room_002" ⟨50, 50, 200, 300⟩ (boxPolygon ⟨50, 50, 200, 300⟩) ""
      (mkRat 9 10)).boundingBox.x0 <
      (Room.mk "room_002" ⟨50, 50, 200, 300⟩ (boxPolygon ⟨50, 50, 200, 300⟩) ""
        (mkRat 9 10)).boundingBox.x1 ∧
    0 ≤ (Room.mk "room_002" ⟨50, 50, 200, 300⟩ (boxPolygon ⟨50, 50, 200, 300⟩) ""
      (mkRat 9 10)).boundingBox.x0 ∧
    (Room.mk "room_002" ⟨50, 50, 200, 300⟩ (boxPolygon ⟨50, 50, 200, 300⟩) ""
      (mkRat 9 10)).boundingBox.x1 ≤ 1000 := by
  have h := claim_C6.1 OutputFormat.mvp (mkRat 7 10) (some 1000) (some 1000) true
    [oobDet, inbDet] 1000 1000
    (Room.mk "room_002" ⟨50, 50, 200, 300⟩ (boxPolygon ⟨50, 50, 200, 300⟩) ""
      (mkRat 9 10)) (by decide)
  exact ⟨h.1, (h.2.2 rfl rfl).1.1, (h.2.2 rfl rfl).1.2.2.1⟩

/-- C7 (corrected form, see the counterexample): each emitted room's id
is `room_{i+1:03d}` where `i` is the 0-based INPUT index of the
candidate it came from — the id is assigned before overlap suppression
from the enumeration index, so dropped earlier candidates leave gaps and
suppression reorders by confidence; ids do not reflect output position. -/
theorem claim_C7 (fmt : OutputFormat) (threshold : ℚ) (iw ih : Option ℚ)
    (fo : Bool) (dets : List Detection) :
    ∀ r ∈ (postprocessOutput fmt threshold iw ih fo dets).rooms,
      ∃ i d, dets.get? i = some d ∧
        processDetection fmt threshold iw ih i d = some r ∧
        r.id = roomId (i + 1) := by
  intro r hr
  obtain ⟨k, d, hget, hpd⟩ := mem_processDetections (mem_postprocess_rooms hr)
  rw [Nat.zero_add] at hpd
  exact ⟨k, d, hget, hpd, (processDetection_some hpd).2.2.1⟩

/-- C7 counterexample: two candidates, the one at input index 0 below the
threshold; the sole emitted room is `room_002`, not `room_001` — ids are
not sequential in output order and gaps occur. -/
theorem claim_C7_counterexample :
    (postprocessOutput OutputFormat.mvp (mkRat 7 10) none none true
      [lowConfDet, highConfDet]).rooms.map Room.id = ["room_002"] ∧
    (postprocessOutput OutputFormat.mvp (mkRat 7 10) none none true
      [lowConfDet, highConfDet]).rooms.map Room.id ≠ ["room_001"] := by
  decide

/-- C7 witness: the emitted room of the two-candidate example carries the
id of its input position. -/
theorem claim_C7_witness :
    ∃ i d, [lowConfDet, highConfDet].get? i = some d ∧
      processDetection OutputFormat.mvp (mkRat 7 10) none none i d =
        some (Room.mk "room_002" ⟨0, 0, 10, 10⟩ (boxPolygon ⟨0, 0, 10, 10⟩) ""
          (mkRat 9 10)) ∧
      (Room.mk "room_002" ⟨0, 0, 10, 10⟩ (boxPolygon ⟨0, 0, 10, 10⟩) ""
        (mkRat 9 10)).id = roomId (i + 1) :=
  claim_C7 OutputFormat.mvp (mkRat 7 10) none none true [lowConfDet, highConfDet]
    (Room.mk "room_002" ⟨0, 0, 10, 10⟩ (boxPolygon ⟨0, 0, 10, 10⟩) "" (mkRat 9 10))
    (by decide)

/-- C2: `cancel_job` raises `JobNotFoundError` for an absent job and
`JobAlreadyCompletedError(current_status)` for any terminal status
(COMPLETED, FAILED, and also CANCELLED); when the conditional write loses
to a concurrent writer, the record is re-read — a record already driven
to CANCELLED is returned as success (idempotent convergence), while one
driven to a different terminal state raises
`JobAlreadyCompletedError` carrying that state. -/
theorem claim_C2 (j cur : Job) (s1 : Option Job) (now : String) :
    cancelJob none s1 now = Except.error CancelError.notFound ∧
    ((j.status = JobStatus.completed ∨ j.status = JobStatus.failed ∨
        j.status = JobStatus.cancelled) →
      cancelJob (some j) s1 now =
        Except.error (CancelError.alreadyCompleted j.status)) ∧
    ((j.status = JobStatus.pending ∨ j.status = JobStatus.processing) →
      ¬(cur.status = j.status ∧ cur.updated_at = j.updated_at) →
      ((cur.status = JobStatus.cancelled →
          cancelJob (some j) (some cur) now = Except.ok cur) ∧
       ((cur.status = JobStatus.completed ∨ cur.status = JobStatus.failed) →
          cancelJob (some j) (some cur) now =
            Except.error (CancelError.alreadyCompleted cur.status)))) := by
  refine ⟨rfl, ?_, ?_⟩
  · intro hterm
    rcases hterm with h | h | h <;> simp [cancelJob, canBeCancelled, h]
  · intro hnonterm hguard
    constructor
    · intro hcur
      rcases hnonterm with h | h <;>
        simp [cancelJob, canBeCancelled, h, hcur]
    · intro hcurterm
      rcases hnonterm with h | h <;> rcases hcurterm with hc | hc <;>
        simp [cancelJob, canBeCancelled, h, hc]

/-- C2 witness: absent job, already-completed job, and the
concurrent-cancel guard-failure convergence returning the re-read
CANCELLED record. -/
theorem claim_C2_witness :
    cancelJob none (some pendingJob) "t2" = Except.error CancelError.notFound ∧
    cancelJob (some completedJob) (some completedJob) "t2" =
      Except.error (CancelError.alreadyCompleted JobStatus.completed) ∧
    cancelJob (some pendingJob) (some concurrentlyCancelledJob) "t2" =
      Except.ok concurrentlyCancelledJob ∧
    cancelJob (some pendingJob) (some concurrentlyFailedJob) "t2" =
      Except.error (CancelError.alreadyCompleted JobStatus.failed) := by
  refine ⟨(claim_C2 pendingJob pendingJob (some pendingJob) "t2").1, ?_, ?_, ?_⟩
  · exact (claim_C2 completedJob completedJob (some completedJob) "t2").2.1
      (Or.inl rfl)
  · exact ((claim_C2 pendingJob concurrentlyCancelledJob
      (some concurrentlyCancelledJob) "t2").2.2 (Or.inl rfl) (by decide)).1 rfl
  · exact ((claim_C2 pendingJob concurrentlyFailedJob
      (some concurrentlyFailedJob) "t2").2.2 (Or.inl rfl) (by decide)).2
      (Or.inr rfl)

/-- C9 (corrected form, see the counterexample): `validate` enforces only
the forward direction of the invariant — an accepted FAILED job always
carries an error; the converse is not enforced anywhere: `update_status`
never clears an existing error on a transition away from FAILED (and a
valid non-FAILED job may carry an error). -/
theorem claim_C9 (j : Job) (s : JobStatus) (now : String) :
    (validateJob j = Except.ok true → j.status = JobStatus.failed →
      j.error ≠ none) ∧
    (updateStatus j s none now).error = j.error ∧
    (updateStatus j s none now).status = s := by
  refine ⟨?_, rfl, rfl⟩
  intro hv hst herr
  unfold validateJob at hv
  split_ifs at hv with h1 h2 h3 h4 <;> simp_all

/-- C9 counterexample: a PENDING job with a non-null error passes
`validate`, so `error != null iff status == FAILED` does not hold for
every job accepted as valid. -/
theorem claim_C9_counterexample :
    validateJob pendingJobWithError = Except.ok true ∧
    pendingJobWithError.error ≠ none ∧
    pendingJobWithError.status ≠ JobStatus.failed := by
  refine ⟨?_, by decide, by decide⟩
  simp [validateJob, pendingJobWithError, blueprintFormatBad, jobIdPrefixOk]

/-- C9 witness: a FAILED job accepted by `validate` carries an error, and
`update_status` away from FAILED keeps it. -/
theorem claim_C9_witness :
    (validateJob concurrentlyFailedJob = Except.ok true →
      concurrentlyFailedJob.status = JobStatus.failed →
      concurrentlyFailedJob.error ≠ none) ∧
    (updateStatus concurrentlyFailedJob JobStatus.completed none "t3").error =
      concurrentlyFailedJob.error ∧
    (updateStatus concurrentlyFailedJob JobStatus.completed none "t3").status =
      JobStatus.completed :=
  claim_C9 concurrentlyFailedJob JobStatus.completed "t3"

/-- Full characterisation of the retry loop from attempt `a` with `n`
attempts of budget left: at least one and at most `n + 1` invocations,
and the recorded sleeps are exactly the jittered backoff delays of the
attempts before the last. -/
theorem retryFrom_spec {E A : Type} (outcomes : Nat → Except E A)
    (retryable : E → Bool) (cfg : RetryConfig) (jitters : Nat → ℚ) :
    ∀ (n a : Nat), cfg.maxRetries - a = n →
      1 ≤ (retryFrom outcomes retryable cfg jitters a).calls ∧
      (retryFrom outcomes retryable cfg jitters a).calls ≤ n + 1 ∧
      (retryFrom outcomes retryable cfg jitters a).delays =
        (List.range ((retryFrom outcomes retryable cfg jitters a).calls - 1)).map
          (fun k => exponentialBackoffDelay cfg (a + k) (jitters (a + k))) := by
  intro n
  induction n with
  | zero =>
    intro a ha
    rw [retryFrom]
    cases outcomes a with
    | ok v => simp
    | error e =>
      dsimp only
      rw [dif_pos (Or.inr (by omega))]
      simp
  | succ m ihm =>
    intro a ha
    rw [retryFrom]
    cases houtcome : outcomes a with
    | ok v => simp
    | error e =>
      dsimp only
      by_cases hr : retryable e = false ∨ cfg.maxRetries ≤ a
      · rw [dif_pos hr]
        simp
      · rw [dif_neg hr]
        obtain ⟨h1, h2, h3⟩ := ihm (a + 1) (by omega)
        refine ⟨by simp, by simp; omega, ?_⟩
        simp only
        rw [h3]
        rw [Nat.add_sub_cancel]
        have hsplit : (retryFrom outcomes retryable cfg jitters (a + 1)).calls =
            ((retryFrom outcomes retryable cfg jitters (a + 1)).calls - 1) + 1 := by
          omega
        rw [hsplit, List.range_succ_eq_map, List.map_cons, List.map_map]
        rw [Nat.add_zero]
        refine congrArg (fun l => exponentialBackoffDelay cfg a (jitters a) :: l) ?_
        refine List.map_congr_left ?_
        intro k _
        have harg : a + 1 + k = a + (k + 1) := by omega
        simp [Function.comp, harg, Nat.succ_eq_add_one]

/-- C8: with the default configuration (initial 1s, multiplier 2, cap 8s,
3 retries) the executor invokes the wrapped callable at most 4 times;
every sleep equals `min(maxDelay, initialDelay * multiplier^attempt)`
plus that attempt's jitter, which (with jitter constrained to a quarter
of the capped delay, as `random.uniform(0, delay * 0.25)` draws it) puts
each sleep in `[capped, capped * 5/4]`; there is no sleep after the final
attempt; a non-retryable first error propagates immediately after a
single invocation with no sleep; and the capped delays of attempts
0, 1, 2, 3, 4 are 1, 2, 4, 8, 8 seconds. -/
theorem claim_C8 {E A : Type} (outcomes : Nat → Except E A)
    (retryable : E → Bool) (jitters : Nat → ℚ)
    (hj : ∀ k, 0 ≤ jitters k ∧
      jitters k ≤ cappedDelay defaultRetryConfig k * (1 / 4)) :
    (retryAwsCall outcomes retryable defaultRetryConfig jitters).calls ≤ 4 ∧
    (retryAwsCall outcomes retryable defaultRetryConfig jitters).delays =
      (List.range
        ((retryAwsCall outcomes retryable defaultRetryConfig jitters).calls - 1)).map
        (fun k => min ((1 : ℚ) * 2 ^ k) 8 + jitters k) ∧
    (retryAwsCall outcomes retryable defaultRetryConfig jitters).delays.length =
      (retryAwsCall outcomes retryable defaultRetryConfig jitters).calls - 1 ∧
    (∀ k, cappedDelay defaultRetryConfig k ≤
        exponentialBackoffDelay defaultRetryConfig k (jitters k) ∧
      exponentialBackoffDelay defaultRetryConfig k (jitters k) ≤
        cappedDelay defaultRetryConfig k * (5 / 4)) ∧
    (∀ e, outcomes 0 = Except.error e → retryable e = false →
      retryAwsCall outcomes retryable defaultRetryConfig jitters =
        { result := Except.error e, calls := 1, delays := [] }) ∧
    cappedDelay defaultRetryConfig 0 = 1 ∧
    cappedDelay defaultRetryConfig 1 = 2 ∧
    cappedDelay defaultRetryConfig 2 = 4 ∧
    cappedDelay defaultRetryConfig 3 = 8 ∧
    cappedDelay defaultRetryConfig 4 = 8 := by
  obtain ⟨hc1, hc4, hdel⟩ := retryFrom_spec outcomes retryable defaultRetryConfig
    jitters defaultRetryConfig.maxRetries 0 rfl
  refine ⟨hc4, ?_, ?_, ?_, ?_, by norm_num [cappedDelay, defaultRetryConfig],
    by norm_num [cappedDelay, defaultRetryConfig],
    by norm_num [cappedDelay, defaultRetryConfig],
    by norm_num [cappedDelay, defaultRetryConfig],
    by norm_num [cappedDelay, defaultRetryConfig]⟩
  · unfold retryAwsCall
    rw [hdel]
    refine List.map_congr_left ?_
    intro k _
    simp [exponentialBackoffDelay, cappedDelay, defaultRetryConfig]
  · unfold retryAwsCall
    rw [hdel]
    simp
  · intro k
    obtain ⟨hj0, hj4⟩ := hj k
    constructor
    · simp only [exponentialBackoffDelay]
      linarith
    · simp only [exponentialBackoffDelay]
      linarith
  · intro e he hre
    rw [retryAwsCall, retryFrom, he]
    dsimp only
    rw [dif_pos (Or.inl hre)]

/-- C8 witness: an always-retryable failing callable with zero jitter
stays within 4 invocations, and the first capped delay is one second. -/
theorem claim_C8_witness :
    (retryAwsCall (fun _ => (Except.error 0 : Except Nat Nat)) (fun _ => true)
      defaultRetryConfig (fun _ => 0)).calls ≤ 4 ∧
    cappedDelay defaultRetryConfig 0 = 1 := by
  have hj : ∀ k, (0 : ℚ) ≤ (fun _ : Nat => (0 : ℚ)) k ∧
      (fun _ : Nat => (0 : ℚ)) k ≤ cappedDelay defaultRetryConfig k * (1 / 4) := by
    intro k
    refine ⟨le_refl 0, ?_⟩
    have h1 : (0 : ℚ) ≤ cappedDelay defaultRetryConfig k := by
      simp only [cappedDelay, defaultRetryConfig]
      positivity
    nlinarith
  have h := claim_C8 (fun _ => (Except.error 0 : Except Nat Nat)) (fun _ => true)
    (fun _ => 0) hj
  exact ⟨h.1, h.2.2.2.2.2.1⟩

/-- C3: for a job with a usable `(contentHash, modelVersion)` pair and a
healthy cache, running stage 1 twice in a row invokes the OCR
collaborator exactly once (on the first run) and the second run is a
cache hit whose response is exactly the view of the item the first run
stored — identical content, no re-computation. -/
theorem claim_C3 {T Rv : Type} (env : Stage1Env T Rv) (jobId : String)
    (job : Job) (bh : String)
    (hjob : env.job = some job)
    (hkey : blueprintKeyMissing job = false)
    (hbucket : env.bucketConfigured = true)
    (hhash : jobHashValue job = some bh)
    (hmiss : env.cache (previewCacheKey bh MODEL_VERSION) = none)
    (hread : env.cacheReadOk = true)
    (hwrite : env.cacheWriteOk = true) :
    (stage1Handler env jobId).ocrCalls = 1 ∧
    (stage1Handler { env with cache := (stage1Handler env jobId).cache }
      jobId).ocrCalls = 0 ∧
    ∃ item : CacheItem Rv,
      (stage1Handler env jobId).cache (previewCacheKey bh MODEL_VERSION) =
        some item ∧
      (stage1Handler { env with cache := (stage1Handler env jobId).cache }
        jobId).resp = Stage1Resp.successCached (cacheItemView item) := by
  have hrun1 : stage1Handler env jobId =
      ⟨Stage1Resp.successFresh
        (PreviewResult.mk jobId "preview" (env.detect env.ocr)
          env.processingTime env.now env.timing),
       fun k => if k = previewCacheKey bh MODEL_VERSION then
         some (mkCacheItem bh
           (PreviewResult.mk jobId "preview" (env.detect env.ocr)
             env.processingTime env.now env.timing) MODEL_VERSION env.expiresAt)
         else env.cache k,
       (storeTextractResults env.blobWriteOk env.blob jobId env.ocr env.now).2,
       1⟩ := by
    rw [stage1Handler, hjob]
    simp [hkey, hbucket, hhash, getCachedPreview, hread, hmiss,
      storePreviewCache, hwrite, mkCacheItem]
  refine ⟨by rw [hrun1], ?_,
    mkCacheItem bh
      (PreviewResult.mk jobId "preview" (env.detect env.ocr)
        env.processingTime env.now env.timing) MODEL_VERSION env.expiresAt,
    by rw [hrun1]; simp, ?_⟩
  · rw [hrun1, stage1Handler]
    simp [hjob, hkey, hbucket, hhash, getCachedPreview, hread]
  · rw [hrun1, stage1Handler]
    simp [hjob, hkey, hbucket, hhash, getCachedPreview, hread, mkCacheItem,
      cacheItemView]

/-- C3 witness: the concrete healthy environment runs stage 1 twice with
one OCR call total and a byte-identical cached second response. -/
theorem claim_C3_witness :
    (stage1Handler witnessEnv "job_a").ocrCalls = 1 ∧
    (stage1Handler { witnessEnv with cache := (stage1Handler witnessEnv "job_a").cache }
      "job_a").ocrCalls = 0 ∧
    ∃ item : CacheItem Nat,
      (stage1Handler witnessEnv "job_a").cache
        (previewCacheKey "abc123" MODEL_VERSION) = some item ∧
      (stage1Handler { witnessEnv with cache := (stage1Handler witnessEnv "job_a").cache }
        "job_a").resp = Stage1Resp.successCached (cacheItemView item) :=
  claim_C3 witnessEnv "job_a" pendingJob "abc123" rfl (by decide) rfl (by decide)
    rfl rfl rfl

/-- C4: on the same healthy path but with the preview-cache write
reporting failure, the whole stage fails with the 503-class
`PREVIEW_CACHE_STORE_FAILED` error carrying `job_id` and
`blueprint_hash` — it is neither a success response nor an inference
error. -/
theorem claim_C4 {T Rv : Type} (env : Stage1Env T Rv) (jobId : String)
    (job : Job) (bh : String)
    (hjob : env.job = some job)
    (hkey : blueprintKeyMissing job = false)
    (hbucket : env.bucketConfigured = true)
    (hhash : jobHashValue job = some bh)
    (hmiss : env.cache (previewCacheKey bh MODEL_VERSION) = none)
    (hread : env.cacheReadOk = true)
    (hwrite : env.cacheWriteOk = false) :
    (stage1Handler env jobId).resp =
      Stage1Resp.failure 503 "PREVIEW_CACHE_STORE_FAILED"
        [("job_id", jobId), ("blueprint_hash", bh), ("service", "DynamoDB")] ∧
    (∀ r, (stage1Handler env jobId).resp ≠ Stage1Resp.successFresh r) ∧
    (∀ c, (stage1Handler env jobId).resp ≠ Stage1Resp.successCached c) := by
  have hresp : (stage1Handler env jobId).resp =
      Stage1Resp.failure 503 "PREVIEW_CACHE_STORE_FAILED"
        [("job_id", jobId), ("blueprint_hash", bh), ("service", "DynamoDB")] := by
    rw [stage1Handler, hjob]
    simp [hkey, hbucket, hhash, getCachedPreview, hread, hmiss,
      storePreviewCache, hwrite]
  refine ⟨hresp, ?_, ?_⟩
  · intro r
    rw [hresp]
    simp
  · intro c
    rw [hresp]
    simp

/-- C4 witness: the concrete environment with a failing cache write. -/
theorem claim_C4_witness :
    (stage1Handler witnessEnvNoCacheWrite "job_a").resp =
      Stage1Resp.failure 503 "PREVIEW_CACHE_STORE_FAILED"
        [("job_id", "job_a"), ("blueprint_hash", "abc123"),
         ("service", "DynamoDB")] :=
  (claim_C4 witnessEnvNoCacheWrite "job_a" pendingJob "abc123" rfl (by decide)
    rfl (by decide) rfl rfl rfl).1

/-- C10: `store_textract_results` swallows every storage failure and
returns the empty key, so a blob-store failure does not fail stage 1: the
stage still returns a fresh success and still caches the preview, while
the OCR artifact remains unstored — and the stage-2 artifact load for
that job then fails with the 404 `TEXTRACT_RESULTS_NOT_FOUND`. -/
theorem claim_C10 {T Rv : Type} (env : Stage1Env T Rv) (jobId : String)
    (job : Job) (bh : String)
    (hjob : env.job = some job)
    (hkey : blueprintKeyMissing job = false)
    (hbucket : env.bucketConfigured = true)
    (hhash : jobHashValue job = some bh)
    (hmiss : env.cache (previewCacheKey bh MODEL_VERSION) = none)
    (hread : env.cacheReadOk = true)
    (hwrite : env.cacheWriteOk = true)
    (hblob : env.blobWriteOk = false)
    (hblobmiss : env.blob (textractKey jobId) = none) :
    (storeTextractResults env.blobWriteOk env.blob jobId env.ocr env.now).1 = "" ∧
    (stage1Handler env jobId).resp =
      Stage1Resp.successFresh
        (PreviewResult.mk jobId "preview" (env.detect env.ocr)
          env.processingTime env.now env.timing) ∧
    (stage1Handler env jobId).cache (previewCacheKey bh MODEL_VERSION) ≠ none ∧
    (stage1Handler env jobId).blob = env.blob ∧
    stage2LoadTextract (some job) (stage1Handler env jobId).blob jobId =
      Stage2Load.textractNotFound 404 "TEXTRACT_RESULTS_NOT_FOUND" := by
  have hstore : storeTextractResults env.blobWriteOk env.blob jobId env.ocr env.now =
      ("", env.blob) := by
    rw [hblob, storeTextractResults]
    simp
  have hrun : stage1Handler env jobId =
      ⟨Stage1Resp.successFresh
        (PreviewResult.mk jobId "preview" (env.detect env.ocr)
          env.processingTime env.now env.timing),
       fun k => if k = previewCacheKey bh MODEL_VERSION then
         some (mkCacheItem bh
           (PreviewResult.mk jobId "preview" (env.detect env.ocr)
             env.processingTime env.now env.timing) MODEL_VERSION env.expiresAt)
         else env.cache k,
       env.blob, 1⟩ := by
    rw [stage1Handler, hjob]
    simp [hkey, hbucket, hhash, getCachedPreview, hread, hmiss,
      storePreviewCache, hwrite, mkCacheItem, hstore]
  refine ⟨by rw [hstore], by rw [hrun], by rw [hrun]; simp, by rw [hrun], ?_⟩
  rw [hrun]
  rw [stage2LoadTextract]
  simp [getTextractResults, hblobmiss]

/-- C10 witness: the concrete environment with a failing blob write:
stage 1 still succeeds, stage 2 then reports the artifact missing. -/
theorem claim_C10_witness :
    (storeTextractResults witnessEnvNoBlobWrite.blobWriteOk
      witnessEnvNoBlobWrite.blob "job_a" witnessEnvNoBlobWrite.ocr
      witnessEnvNoBlobWrite.now).1 = "" ∧
    (stage1Handler witnessEnvNoBlobWrite "job_a").resp =
      Stage1Resp.successFresh
        (PreviewResult.mk "job_a" "preview"
          (witnessEnvNoBlobWrite.detect witnessEnvNoBlobWrite.ocr)
          witnessEnvNoBlobWrite.processingTime witnessEnvNoBlobWrite.now
          witnessEnvNoBlobWrite.timing) ∧
    (stage1Handler witnessEnvNoBlobWrite "job_a").cache
      (previewCacheKey "abc123" MODEL_VERSION) ≠ none ∧
    (stage1Handler witnessEnvNoBlobWrite "job_a").blob =
      witnessEnvNoBlobWrite.blob ∧
    stage2LoadTextract (some pendingJob)
      (stage1Handler witnessEnvNoBlobWrite "job_a").blob "job_a" =
      Stage2Load.textractNotFound 404 "TEXTRACT_RESULTS_NOT_FOUND" :=
  claim_C10 witnessEnvNoBlobWrite "job_a" pendingJob "abc123" rfl (by decide)
    rfl (by decide) rfl rfl rfl rfl rfl

/-- `send_message` reports success exactly on transport success. -/
theorem sendMessage_fst (cache : ConnCache) (cid : String) (o : SendOutcome) :
    (sendMessage cache cid o).1 = decide (o = SendOutcome.ok) := by
  cases o <;> simp [sendMessage]

/-- The delivery loop visits every connection and counts exactly the
successful transports, whatever each delivery does. -/
theorem sendLoop_count (outcomes : String → SendOutcome) :
    ∀ (l : List String) (cache : ConnCache) (acc : Nat),
      (sendLoop outcomes l cache acc).1 =
        acc + l.countP (fun cid => decide (outcomes cid = SendOutcome.ok)) := by
  intro l
  induction l with
  | nil =>
    intro cache acc
    simp [sendLoop]
  | cons cid rest ih =>
    intro cache acc
    rw [sendLoop]
    rw [ih]
    rw [List.countP_cons]
    rw [sendMessage_fst]
    cases houtcome : outcomes cid <;> simp [houtcome] <;> omega

/-- C5: the fan-out delivers to every subscribed connection
independently — the attempted list is exactly the lookup result, no
matter which deliveries fail — and returns the number of successful
deliveries; these are total functions, every transport failure being
mapped to a `False` per-connection result rather than an exception.
A gone connection is evicted from the in-process cache: provided the
connection is cached under at most one job and cached lists are
duplicate-free, no cache entry contains it afterwards. -/
theorem claim_C5 (cache : ConnCache) (queryOk : Bool) (db : String → List String)
    (jobId : String) (outcomes : String → SendOutcome) :
    (sendMessageToJob cache queryOk db jobId outcomes).2.2 =
      (getConnectionsForJob cache queryOk db jobId).1 ∧
    (sendMessageToJob cache queryOk db jobId outcomes).1 =
      (getConnectionsForJob cache queryOk db jobId).1.countP
        (fun cid => decide (outcomes cid = SendOutcome.ok)) ∧
    (∀ cid : String,
      (∀ p q, p ∈ cache → q ∈ cache → cid ∈ p.2 → cid ∈ q.2 → p = q) →
      (∀ p ∈ cache, p.2.Nodup) →
      ∀ p ∈ (sendMessage cache cid SendOutcome.gone).2, cid ∉ p.2) := by
  refine ⟨?_, ?_, ?_⟩
  · rw [sendMessageToJob]
    split <;> rfl
  · rw [sendMessageToJob]
    split
    · next hempty =>
      rw [hempty]
      simp
    · rw [sendLoop_count]
      simp
  · intro cid huniq hnodup p hp
    have hp2 : p ∈ removeConnectionFromCache cache cid
        (findJobForConnection cache cid) := hp
    rw [removeConnectionFromCache.eq_def] at hp2
    cases hfind : findJobForConnection cache cid with
    | none =>
      rw [hfind] at hp2
      dsimp only at hp2
      obtain ⟨q, hq, hfq⟩ := List.mem_filterMap.mp hp2
      have hnone : List.find? (fun p => p.2.contains cid) cache = none := by
        have := hfind
        rw [findJobForConnection] at this
        simpa using this
      have hcontq := List.find?_eq_none.mp hnone q hq
      rw [if_neg (by simpa using hcontq)] at hfq
      cases hfq
      intro hmem
      exact hcontq (by simpa using hmem)
    | some j =>
      rw [hfind] at hp2
      dsimp only at hp2
      obtain ⟨q, hq, hfq⟩ := List.mem_filterMap.mp hp2
      have hfind2 : ∃ q0, List.find? (fun p => p.2.contains cid) cache = some q0 ∧
          q0.1 = j := by
        have := hfind
        rw [findJobForConnection] at this
        simpa using this
      obtain ⟨q0, hq0find, hq0j⟩ := hfind2
      have hq0mem : q0 ∈ cache := List.mem_of_find?_eq_some hq0find
      have hq0cont : cid ∈ q0.2 := by
        simpa using List.find?_some hq0find
      by_cases hqc : cid ∈ q.2
      · have hqq0 : q = q0 := huniq q q0 hq hq0mem hqc hq0cont
        rw [if_pos (by rw [hqq0, hq0j]), if_pos (by simpa using hqc)] at hfq
        rw [removeFromEntry] at hfq
        split at hfq
        · cases hfq
        · cases hfq
          intro hmem
          exact (hnodup q hq).not_mem_erase hmem
      · by_cases hqj : q.1 = j
        · rw [if_pos hqj, if_neg (by simpa using hqc)] at hfq
          cases hfq
          exact hqc
        · rw [if_neg hqj] at hfq
          cases hfq
          exact hqc

/-- C5 witness: a two-connection fan-out where one delivery succeeds and
the other connection is gone — both are attempted, one success is
counted, and the gone connection is evicted. -/
theorem claim_C5_witness :
    (sendMessageToJob [] true
      (fun _ => ["conn1", "conn2"]) "job_a"
      (fun cid => if cid = "conn2" then SendOutcome.gone else SendOutcome.ok)).2.2 =
      (getConnectionsForJob [] true (fun _ => ["conn1", "conn2"]) "job_a").1 ∧
    (sendMessageToJob [] true
      (fun _ => ["conn1", "conn2"]) "job_a"
      (fun cid => if cid = "conn2" then SendOutcome.gone else SendOutcome.ok)).1 =
      (getConnectionsForJob [] true (fun _ => ["conn1", "conn2"]) "job_a").1.countP
        (fun cid => decide ((if cid = "conn2" then SendOutcome.gone
          else SendOutcome.ok) = SendOutcome.ok)) ∧
    (∀ p ∈ (sendMessage [("job_a", ["conn1", "conn2"])] "conn2"
        SendOutcome.gone).2, "conn2" ∉ p.2) := by
  have h1 := claim_C5 [] true (fun _ => ["conn1", "conn2"]) "job_a"
    (fun cid => if cid = "conn2" then SendOutcome.gone else SendOutcome.ok)
  have h2 := claim_C5 [("job_a", ["conn1", "conn2"])] true
    (fun _ => ["conn1", "conn2"]) "job_a"
    (fun cid => if cid = "conn2" then SendOutcome.gone else SendOutcome.ok)
  refine ⟨h1.1, h1.2.1, ?_⟩
  refine h2.2.2 "conn2" ?_ ?_
  · intro p q hp hq _ _
    rw [List.mem_singleton] at hp hq
    rw [hp, hq]
  · intro p hp
    rw [List.mem_singleton] at hp
    rw [hp]
    decide
